import Mathlib

/-!
Verification of the zenml integration-layer fragments.

The Python sources are shallowly embedded:

* Python `dict`s become association lists (`PyDict`) with insertion-order
  semantics: assignment to an existing key keeps its position, assignment to
  a fresh key appends at the end, exactly as CPython dicts behave.
* Fallible code returns `Except`; each Python exception class that the code
  can raise is a constructor of an explicit error type.
* Third-party client objects (mlflow, the filesystem) become explicit state
  records threaded through the functions that the sources call on them.
-/

set_option autoImplicit false

namespace Zenml

/-- A Python `dict` with string keys, as an insertion-ordered association
list.  CPython dicts have unique keys; theorems that need uniqueness take a
`Nodup` hypothesis on the key list. -/
abbrev PyDict (α : Type) := List (String × α)

/-- Lookup `d[k]` (first occurrence). -/
def dictGet {α : Type} : PyDict α → String → Option α
  | [], _ => none
  | (k', v) :: rest, k => if k' = k then some v else dictGet rest k

/-- Assignment `d[k] = v`: replaces the value at an existing key in place,
otherwise appends the new pair at the end — CPython dict update order. -/
def dictInsert {α : Type} : PyDict α → String → α → PyDict α
  | [], k, v => [(k, v)]
  | (k', v') :: rest, k, v =>
      if k' = k then (k, v) :: rest else (k', v') :: dictInsert rest k v

/-- JSON values, covering the fragment `json.loads` is fed in this code
base: null, booleans, integers and strings. -/
inductive JsonValue : Type
  | jnull : JsonValue
  | jbool (b : Bool) : JsonValue
  | jint (n : Int) : JsonValue
  | jstr (s : String) : JsonValue
deriving DecidableEq, Repr

/-! ## zenml/pipelines/simple_pipeline.py -/

namespace SimplePipelineM

/-- A Python function object as `SimplePipeline` sees it: only its
`__name__` is inspected; `code` is an opaque identity so that distinct
functions stay distinct in the model. -/
structure FuncObj where
  name : String
  code : Nat
deriving DecidableEq, Repr

/-- A class attribute value; `SimplePipeline` only ever installs
`staticmethod(func)`. -/
inductive ClassAttr : Type
  | staticm (f : FuncObj) : ClassAttr
deriving DecidableEq, Repr

/-- Base classes that appear in the `type(...)` calls of this file. -/
inductive PyBaseClass : Type
  | BasePipeline : PyBaseClass
deriving DecidableEq, Repr

/-- The result of a `type(name, bases, dict)` call. -/
structure PipelineCls where
  name : String
  bases : List PyBaseClass
  attrs : PyDict ClassAttr
deriving DecidableEq, Repr

/-- The call `SimplePipeline(func)`: builds
`type(func.__name__, (BasePipeline,), {"connect": staticmethod(func)})`
and returns it; `func` itself is embedded unchanged. -/
def SimplePipeline (func : FuncObj) : PipelineCls :=
  { name := func.name
    bases := [PyBaseClass.BasePipeline]
    attrs := [("connect", ClassAttr.staticm func)] }

end SimplePipelineM

/-! ## zenml/config/base_config.py -/

namespace BaseConfigM

/-- The state a `BaseConfig` instance and its backing filesystem are in.
`attrs` is the pydantic field dict that `self.dict()` serialises; `fs` maps
file paths to the YAML document stored there (modelled as the parsed
mapping); `configPath` is the value of `get_config_path()`, i.e.
`os.path.join(get_config_dir(), get_config_file_name())` for the concrete
subclass. -/
structure BaseConfigState where
  attrs : PyDict JsonValue
  fs : PyDict (PyDict JsonValue)
  configPath : String
deriving DecidableEq, Repr

/-- Model of `path_utils.create_file_if_not_exists`: creates an empty file when the
path is absent, otherwise leaves the filesystem alone. -/
def create_file_if_not_exists (fs : PyDict (PyDict JsonValue)) (path : String) :
    PyDict (PyDict JsonValue) :=
  match dictGet fs path with
  | some _ => fs
  | none => dictInsert fs path []

/-- Model of `yaml_utils.write_yaml(path, contents)`: overwrites the file at `path`
with the serialised dict. -/
def write_yaml (fs : PyDict (PyDict JsonValue)) (path : String)
    (contents : PyDict JsonValue) : PyDict (PyDict JsonValue) :=
  dictInsert fs path contents

/-- Method `BaseConfig._dump`: create the config file if missing, then write the
current `self.dict()` to it. -/
def BaseConfig_dump (s : BaseConfigState) : BaseConfigState :=
  { s with fs := write_yaml (create_file_if_not_exists s.fs s.configPath)
                   s.configPath s.attrs }

/-- Method `BaseConfig.__init__`: pydantic assembles the field values (from init
kwargs, the YAML settings source and the environment — that merge is opaque
here, `data` is its result), then `self._dump()` persists them. -/
def BaseConfig_init (fs : PyDict (PyDict JsonValue)) (configPath : String)
    (data : PyDict JsonValue) : BaseConfigState :=
  BaseConfig_dump { attrs := data, fs := fs, configPath := configPath }

/-- Method `BaseConfig.__setattr__`: sets the attribute through pydantic, then
`self._dump()` persists the whole dict. -/
def BaseConfig_setattr (s : BaseConfigState) (name : String) (value : JsonValue) :
    BaseConfigState :=
  BaseConfig_dump { s with attrs := dictInsert s.attrs name value }

end BaseConfigM

/-! ## src/zenml/integrations/mlflow/mlflow_utils.py -/

namespace MlflowM

/-- A run recorded on the tracking server: its id, the experiment it belongs
to, and its `tags.mlflow.runName` tag. -/
structure MlflowRun where
  runId : Nat
  experimentId : Nat
  runName : String
deriving DecidableEq, Repr

/-- The tracking server's state: experiment names to ids, the recorded runs
(in creation order), and the next fresh run id. -/
structure MlflowState where
  experiments : PyDict Nat
  runs : List MlflowRun
  nextRunId : Nat
deriving DecidableEq, Repr

/-- The `ActiveRun` handle `start_run` returns. -/
structure ActiveRun where
  runId : Nat
  experimentId : Nat
deriving DecidableEq, Repr

/-- Model of `mlflow.get_experiment_by_name`: `None` when no experiment has the
name. -/
def get_experiment_by_name (st : MlflowState) (name : String) : Option Nat :=
  dictGet st.experiments name

/-- Model of `mlflow.search_runs(experiment_ids=[expId],
filter_string=f'tags.mlflow.runName = "{run_name}"', output_format="list")`:
the runs of the experiment whose runName tag matches. -/
def search_runs_by_name (st : MlflowState) (expId : Nat) (run_name : String) :
    List MlflowRun :=
  st.runs.filter fun r => decide (r.experimentId = expId ∧ r.runName = run_name)

/-- Model of `mlflow.start_run(run_id=..., experiment_id=...)`: resumes the existing
run; the server state is unchanged. -/
def start_run_existing (st : MlflowState) (run_id expId : Nat) :
    ActiveRun × MlflowState :=
  ({ runId := run_id, experimentId := expId }, st)

/-- Model of `mlflow.start_run(run_name=..., experiment_id=...)`: creates a fresh run
with that name in the experiment. -/
def start_run_new (st : MlflowState) (run_name : String) (expId : Nat) :
    ActiveRun × MlflowState :=
  ({ runId := st.nextRunId, experimentId := expId },
   { st with runs := st.runs ++ [⟨st.nextRunId, expId, run_name⟩]
             nextRunId := st.nextRunId + 1 })

/-- The errors `get_or_create_mlflow_run` can raise:
`attributeErrorNone` is the `AttributeError` from evaluating
`mlflow_experiment.experiment_id` when `get_experiment_by_name` returned
`None`. -/
inductive MlflowError : Type
  | attributeErrorNone : MlflowError
deriving DecidableEq, Repr

/-- The read phase of `get_or_create_mlflow_run`: `search_runs(...)` and, if
any run matched, `runs[0].info.run_id`. -/
def gocr_decide (st : MlflowState) (expId : Nat) (run_name : String) :
    Option Nat :=
  (search_runs_by_name st expId run_name).head?.map MlflowRun.runId

/-- The write phase of `get_or_create_mlflow_run`: `start_run` with the run
id found by the search, or with `run_name` when nothing matched. -/
def gocr_act (st : MlflowState) (expId : Nat) (run_name : String)
    (decision : Option Nat) : ActiveRun × MlflowState :=
  match decision with
  | some rid => start_run_existing st rid expId
  | none => start_run_new st run_name expId

/-- The function `get_or_create_mlflow_run(experiment_name, run_name)`: looks up the
experiment (reading `.experiment_id` off the result without a `None` check),
searches for a run with the `mlflow.runName` tag, and resumes the first hit
or starts a new run. -/
def get_or_create_mlflow_run (st : MlflowState)
    (experiment_name run_name : String) :
    Except MlflowError (ActiveRun × MlflowState) :=
  match get_experiment_by_name st experiment_name with
  | none => Except.error MlflowError.attributeErrorNone
  | some expId =>
      Except.ok (gocr_act st expId run_name (gocr_decide st expId run_name))

end MlflowM

/-! ## src/zenml/steps/utils.py -/

namespace StepsUtils

/-- A TFX artifact handed to an executor; only its identity matters to the
adapter, which passes it through untouched. -/
structure Artifact where
  id : Nat
deriving DecidableEq, Repr

/-- A Python value that can end up in `function_args`: either an artifact
taken from a channel or a JSON value decoded from `exec_properties`. -/
inductive PyVal : Type
  | artifactV (a : Artifact) : PyVal
  | jsonV (j : JsonValue) : PyVal
deriving DecidableEq, Repr

/-- The primitive Python types that appear as parameter annotations of the
wrapped step functions modelled here (`int` and `str`). -/
inductive PrimType : Type
  | intT : PrimType
  | strT : PrimType
deriving DecidableEq, Repr

/-- The annotation of one argument of the wrapped function, as
`_FunctionExecutor.Do` classifies it with `inspect.getfullargspec`:
an `Input(...)` annotation, an `Output(...)` annotation, or anything else —
which lands in `param_spec`.  (The artifact-type payload of `Input` only
feeds the `inputs_to_take_care_of` list, which the code never reads, so it
is dropped here; a missing annotation behaves like any non-Input/Output
annotation and is also a `paramAnn` in the restricted universe modelled.) -/
inductive ArgAnn : Type
  | inputAnn : ArgAnn
  | outputAnn : ArgAnn
  | paramAnn (t : PrimType) : ArgAnn
deriving DecidableEq, Repr

/-- A Python function as the executor uses it: its argspec (names with
annotations, in declaration order) and its behaviour when applied to a
keyword dict (`None` return becomes `none`). -/
structure PyFunction where
  argspec : List (String × ArgAnn)
  call : PyDict PyVal → Option PyVal

/-- The exceptions `_FunctionExecutor.Do` can raise.  In Python's exception
hierarchy `json.JSONDecodeError` and `pydantic.ValidationError` (pydantic
v1) are both subclasses of `ValueError`; `isValueError` below records
that. -/
inductive DoError : Type
  | valueErrorInput (name : String) : DoError
  | valueErrorOutput (name : String) : DoError
  | jsonDecodeError (key : String) : DoError
  | validationError : DoError
  | stepInterfaceError : DoError
  | attributeError : DoError
deriving DecidableEq, Repr

/-- Whether the exception is a `ValueError` (including the `ValueError`
subclasses `json.JSONDecodeError` and `pydantic.ValidationError`). -/
def DoError.isValueError : DoError → Bool
  | DoError.valueErrorInput _ => true
  | DoError.valueErrorOutput _ => true
  | DoError.jsonDecodeError _ => true
  | DoError.validationError => true
  | DoError.stepInterfaceError => false
  | DoError.attributeError => false

/-- Whether the exception is one of the two singleton-channel `ValueError`s
that `Do` raises explicitly. -/
def DoError.isChannelValueError : DoError → Bool
  | DoError.valueErrorInput _ => true
  | DoError.valueErrorOutput _ => true
  | _ => false

/-- Reads a run of decimal digits into a number; fails at the first
non-digit character. -/
def parseDigits : List Char → Nat → Option Nat
  | [], acc => some acc
  | c :: cs, acc =>
      if c.isDigit then parseDigits cs (acc * 10 + (c.toNat - 48)) else none

/-- Reads an optionally-signed decimal integer literal. -/
def parseIntChars : List Char → Option Int
  | [] => none
  | '-' :: cs =>
      match cs with
      | [] => none
      | _ => (parseDigits cs 0).map fun n => -(n : Int)
  | cs => (parseDigits cs 0).map fun n => (n : Int)

/-- Model of `json.loads` on the JSON fragment exercised here: `null`,
booleans, integer literals and simple quoted strings decode; every other
string fails, as `json.loads` raises `json.JSONDecodeError` (a subclass of
`ValueError`) on input that is not valid JSON. -/
def jsonLoads (s : String) : Option JsonValue :=
  if s = "null" then some JsonValue.jnull
  else if s = "true" then some (JsonValue.jbool true)
  else if s = "false" then some (JsonValue.jbool false)
  else
    match parseIntChars s.toList with
    | some n => some (JsonValue.jint n)
    | none =>
        match s.toList with
        | '"' :: (c :: cs) =>
            if (c :: cs).getLast? = some '"' then
              some (JsonValue.jstr (String.mk ((c :: cs).dropLast)))
            else none
        | _ => none

/-- One channel-collection loop of `Do`: for each `(name, artifact)` item of
the dict, `function_args[name] = artifact[0]` when the channel holds exactly
one artifact, otherwise the singleton-channel `ValueError` (built by `err`)
is raised at the first offending entry. -/
def collectChannels (err : String → DoError) :
    PyDict PyVal → PyDict (List Artifact) → Except DoError (PyDict PyVal)
  | args, [] => Except.ok args
  | args, (name, arts) :: rest =>
      match arts with
      | [a] => collectChannels err (dictInsert args name (PyVal.artifactV a)) rest
      | _ => Except.error (err name)

/-- The `param_spec` dict that the argspec loop of `Do` builds: every
argument whose annotation is neither `Input` nor `Output`, with its
annotation, in argument order. -/
def paramSpecOf (argspec : List (String × ArgAnn)) : PyDict PrimType :=
  argspec.filterMap fun p =>
    match p.2 with
    | ArgAnn.paramAnn t => some (p.1, t)
    | _ => none

/-- The comprehension building new_exec, json-loading every property value:
decodes every execution property, raising `json.JSONDecodeError` at the
first value that is not valid JSON. -/
def decodeExecProps : PyDict String → Except DoError (PyDict JsonValue)
  | [] => Except.ok []
  | (k, v) :: rest =>
      match jsonLoads v with
      | none => Except.error (DoError.jsonDecodeError k)
      | some j =>
          match decodeExecProps rest with
          | Except.error e => Except.error e
          | Except.ok ds => Except.ok ((k, j) :: ds)

/-- pydantic-v1 field validation for the primitive types modelled: `int`
accepts ints, bools and numeric strings; `str` accepts strings and coerces
ints and bools. -/
def validatePrim : PrimType → JsonValue → Option JsonValue
  | PrimType.intT, JsonValue.jint n => some (JsonValue.jint n)
  | PrimType.intT, JsonValue.jbool b => some (JsonValue.jint (if b then 1 else 0))
  | PrimType.intT, JsonValue.jstr s => (parseIntChars s.toList).map JsonValue.jint
  | PrimType.intT, _ => none
  | PrimType.strT, JsonValue.jstr s => some (JsonValue.jstr s)
  | PrimType.strT, JsonValue.jint n => some (JsonValue.jstr (toString n))
  | PrimType.strT, JsonValue.jbool b =>
      some (JsonValue.jstr (if b then "True" else "False"))
  | PrimType.strT, _ => none

/-- Model of `pydantic_c.parse_obj(new_exec).dict()`: each declared field must be
present in the decoded properties and validate against its type (missing or
invalid fields raise `pydantic.ValidationError`, a `ValueError` subclass);
extra keys of `new_exec` are ignored; the result lists the fields in
declaration order. -/
def parseParams (exec : PyDict JsonValue) :
    PyDict PrimType → Except DoError (PyDict JsonValue)
  | [] => Except.ok []
  | (k, t) :: rest =>
      match dictGet exec k with
      | none => Except.error DoError.validationError
      | some j =>
          match validatePrim t j with
          | none => Except.error DoError.validationError
          | some j' =>
              match parseParams exec rest with
              | Except.error e => Except.error e
              | Except.ok ps => Except.ok ((k, j') :: ps)

/-- Everything `_FunctionExecutor.Do` does before invoking the wrapped
function: collect the input channels into `function_args`, pop
`return_output` off the outputs, collect the remaining output channels,
decode `exec_properties`, validate them against `param_spec`, and merge the
parsed parameters into `function_args` (`function_args.update(...)`, which
overwrites any same-named entry).  Returns the final keyword dict and the
popped return channel. -/
def DoPrepare (f : PyFunction) (input_dict output_dict : PyDict (List Artifact))
    (exec_properties : PyDict String) :
    Except DoError (PyDict PyVal × Option (List Artifact)) :=
  match collectChannels DoError.valueErrorInput [] input_dict with
  | Except.error e => Except.error e
  | Except.ok args1 =>
      match collectChannels DoError.valueErrorOutput args1
          (output_dict.filter fun p => p.1 != "return_output") with
      | Except.error e => Except.error e
      | Except.ok args2 =>
          match decodeExecProps exec_properties with
          | Except.error e => Except.error e
          | Except.ok newExec =>
              match parseParams newExec (paramSpecOf f.argspec) with
              | Except.error e => Except.error e
              | Except.ok parsed =>
                  Except.ok
                    (parsed.foldl (fun d p => dictInsert d p.1 (PyVal.jsonV p.2)) args2,
                     dictGet output_dict "return_output")

/-- What `Do` produces when it returns normally: the keyword dict the
wrapped function was invoked with and the function's return value. -/
structure DoResult where
  callArgs : PyDict PyVal
  returns : Option PyVal
deriving Repr

/-- The tail of `Do`, after `returns = self._FUNCTION(**function_args)`.
When a `return_output` channel was popped and the function returned a value,
the code runs `return_artifact.materializers.json.write(returns)`; but
`return_artifact` is the popped dict value, a `List[tfx_types.Artifact]` by
`Do`'s own signature, and a Python list has no `materializers` attribute, so
the attribute access raises `AttributeError` before anything is written.
When exactly one of the popped channel and the return value is present, a
`StepInterfaceError` is raised. -/
def doReturnPhase (return_artifact : Option (List Artifact))
    (args : PyDict PyVal) (returns : Option PyVal) : Except DoError DoResult :=
  match return_artifact with
  | some _ =>
      match returns with
      | some _ => Except.error DoError.attributeError
      | none => Except.error DoError.stepInterfaceError
  | none =>
      match returns with
      | some _ => Except.error DoError.stepInterfaceError
      | none => Except.ok { callArgs := args, returns := returns }

/-- The method `_FunctionExecutor.Do(input_dict, output_dict, exec_properties)` with
`self._FUNCTION = f`. -/
def Do (f : PyFunction) (input_dict output_dict : PyDict (List Artifact))
    (exec_properties : PyDict String) : Except DoError DoResult :=
  match DoPrepare f input_dict output_dict exec_properties with
  | Except.error e => Except.error e
  | Except.ok (args, ra) => doReturnPhase ra args (f.call args)

/-- Does some channel of the dict hold a number of artifacts other than
one? -/
def hasBad (chans : PyDict (List Artifact)) : Bool :=
  chans.any fun p => p.2.length != 1

/-- Is some input channel, or some non-`return_output` output channel, not a
one-artifact singleton? -/
def hasBadChannel (input_dict output_dict : PyDict (List Artifact)) : Bool :=
  hasBad input_dict ||
    hasBad (output_dict.filter fun p => p.1 != "return_output")

/-- The names of the wrapped function's `param_spec` arguments — the keys
that `function_args.update(...)` can overwrite. -/
def paramFields (f : PyFunction) : List String :=
  (paramSpecOf f.argspec).map Prod.fst

/-! ### generate_component -/

/-- Model of `component_spec.ChannelParameter(type=artifact_type)`; artifact types
are identified by name. -/
structure ChannelParameter where
  type : String
deriving DecidableEq, Repr

/-- Model of `component_spec.ExecutionParameter(type=...)`. -/
structure ExecutionParameter where
  type : PrimType
deriving DecidableEq, Repr

/-- The component spec class `type("%s_Spec" % name, (ComponentSpec,), ...)`
builds. -/
structure ComponentSpecCls where
  name : String
  INPUTS : PyDict ChannelParameter
  OUTPUTS : PyDict ChannelParameter
  PARAMETERS : PyDict ExecutionParameter
deriving DecidableEq, Repr

/-- The executor class `type("%s_Executor" % name, (_FunctionExecutor,),
{"_FUNCTION": staticmethod(step.process), "__module__": step.__module__})`
builds. -/
structure ExecutorCls where
  name : String
  FUNCTION : PyFunction
  module : String

/-- Model of `ExecutorClassSpec(executor_class=...)`. -/
structure ExecutorClassSpecV where
  executor_class : ExecutorCls

/-- The component class returned by `generate_component`. -/
structure ComponentCls where
  name : String
  SPEC_CLASS : ComponentSpecCls
  EXECUTOR_SPEC : ExecutorClassSpecV
  module : String

/-- A step instance as `generate_component` reads it: its class name, its
module, the three spec dicts, and its `process` function. -/
structure StepCls where
  name : String
  module : String
  INPUT_SPEC : PyDict String
  OUTPUT_SPEC : PyDict String
  PARAM_SPEC : PyDict PrimType
  process : PyFunction

/-- A module attribute value, as far as `generate_component`'s `setattr`
call is concerned. -/
inductive PyObj : Type
  | execObj (c : ExecutorCls) : PyObj
  | otherObj (n : Nat) : PyObj

/-- The table `sys.modules`, restricted to attribute dicts. -/
abbrev Modules := PyDict (PyDict PyObj)

/-- Attribute lookup through `sys.modules`. -/
def getModuleAttr (modules : Modules) (m a : String) : Option PyObj :=
  match dictGet modules m with
  | none => none
  | some d => dictGet d a

/-- Lookup of `sys.modules[step.__module__]` raises `KeyError` when the module is not
registered. -/
inductive GenError : Type
  | keyError : GenError
deriving DecidableEq, Repr

/-- The executor class `generate_component` synthesizes for `step`. -/
def executorClassOf (step : StepCls) : ExecutorCls :=
  { name := step.name ++ "_Executor"
    FUNCTION := step.process
    module := step.module }

/-- The function `generate_component(step)`: builds the spec dicts from `INPUT_SPEC`,
`OUTPUT_SPEC` and `PARAM_SPEC` (every execution parameter typed `str`),
synthesizes the `_Spec`, `_Executor` and component classes, installs the
executor class on `sys.modules[step.__module__]` under
`"%s_Executor" % step.__class__.__name__`, and returns the component class
together with the updated module table. -/
def generate_component (modules : Modules) (step : StepCls) :
    Except GenError (ComponentCls × Modules) :=
  let spec_inputs := step.INPUT_SPEC.map fun p => (p.1, ChannelParameter.mk p.2)
  let spec_outputs := step.OUTPUT_SPEC.map fun p => (p.1, ChannelParameter.mk p.2)
  let spec_params :=
    step.PARAM_SPEC.map fun p => (p.1, ExecutionParameter.mk PrimType.strT)
  let component_spec_class : ComponentSpecCls :=
    { name := step.name ++ "_Spec"
      INPUTS := spec_inputs
      OUTPUTS := spec_outputs
      PARAMETERS := spec_params }
  let executor_class := executorClassOf step
  match dictGet modules step.module with
  | none => Except.error GenError.keyError
  | some mdict =>
      let modules' :=
        dictInsert modules step.module
          (dictInsert mdict (step.name ++ "_Executor") (PyObj.execObj executor_class))
      Except.ok
        ({ name := step.name
           SPEC_CLASS := component_spec_class
           EXECUTOR_SPEC := { executor_class := executor_class }
           module := step.module },
         modules')

/-! ### Concrete fixtures used for counterexamples and witnesses -/

/-- A step function with no arguments that returns `None`. -/
def fNoArgs : PyFunction := ⟨[], fun _ => none⟩

/-- A step function with one `int`-annotated parameter `a`, returning
`None`. -/
def fIntParam : PyFunction :=
  ⟨[("a", ArgAnn.paramAnn PrimType.intT)], fun _ => none⟩

/-- A step function with no arguments that returns the value `1`. -/
def fRetOne : PyFunction := ⟨[], fun _ => some (PyVal.jsonV (JsonValue.jint 1))⟩

/-- An input dict with one singleton channel `inp`. -/
def iW : PyDict (List Artifact) := [("inp", [⟨3⟩])]

/-- An output dict with a singleton channel `out` and a `return_output`
channel. -/
def oW : PyDict (List Artifact) := [("out", [⟨4⟩]), ("return_output", [⟨9⟩])]

/-- The keyword dict `Do` prepares from `iW` and `oW` with no execution
properties. -/
def argsW : PyDict PyVal :=
  [("inp", PyVal.artifactV ⟨3⟩), ("out", PyVal.artifactV ⟨4⟩)]

/-- A step whose class is named `MyStep` in module `mod`, with one input,
one output and one `int` parameter. -/
def stepW : StepCls :=
  { name := "MyStep"
    module := "mod"
    INPUT_SPEC := [("x", "XArtifact")]
    OUTPUT_SPEC := [("y", "YArtifact")]
    PARAM_SPEC := [("p", PrimType.intT)]
    process := fNoArgs }

/-- A module table holding an empty module `mod`. -/
def modW : Modules := [("mod", [])]

/-- The component class `generate_component modW stepW` returns. -/
def compW : ComponentCls :=
  { name := "MyStep"
    SPEC_CLASS :=
      { name := "MyStep_Spec"
        INPUTS := [("x", ChannelParameter.mk "XArtifact")]
        OUTPUTS := [("y", ChannelParameter.mk "YArtifact")]
        PARAMETERS := [("p", ExecutionParameter.mk PrimType.strT)] }
    EXECUTOR_SPEC := { executor_class := executorClassOf stepW }
    module := "mod" }

/-- The module table after `generate_component modW stepW`. -/
def modW' : Modules :=
  [("mod", [("MyStep_Executor", PyObj.execObj (executorClassOf stepW))])]

end StepsUtils

namespace MlflowM

/-- A server with experiment `exp` and two runs named `run`. -/
def stRuns : MlflowState :=
  { experiments := [("exp", 1)]
    runs := [⟨5, 1, "run"⟩, ⟨7, 1, "run"⟩]
    nextRunId := 9 }

/-- A server with experiment `exp` and no runs. -/
def stFresh : MlflowState :=
  { experiments := [("exp", 1)], runs := [], nextRunId := 0 }

/-- A server with no experiments at all. -/
def stNoExp : MlflowState :=
  { experiments := [], runs := [], nextRunId := 0 }

end MlflowM

/-! ## Dictionary lemmas -/

theorem dictGet_dictInsert_self {α : Type} (d : PyDict α) (k : String) (v : α) :
    dictGet (dictInsert d k v) k = some v := by
  induction d with
  | nil => simp [dictInsert, dictGet]
  | cons p rest ih =>
      obtain ⟨k', v'⟩ := p
      by_cases h : k' = k <;> simp [dictInsert, dictGet, h, ih]

theorem dictGet_dictInsert_ne {α : Type} (d : PyDict α) (k k' : String) (v : α)
    (h : k' ≠ k) : dictGet (dictInsert d k v) k' = dictGet d k' := by
  induction d with
  | nil => simp [dictInsert, dictGet, Ne.symm h]
  | cons p rest ih =>
      obtain ⟨k0, v0⟩ := p
      by_cases h0 : k0 = k
      · subst h0
        simp [dictInsert, dictGet, Ne.symm h]
      · by_cases h1 : k0 = k' <;> simp [dictInsert, dictGet, h0, h1, h, ih]

theorem dictGet_eq_none_iff {α : Type} (d : PyDict α) (k : String) :
    dictGet d k = none ↔ k ∉ d.map Prod.fst := by
  induction d with
  | nil => simp [dictGet]
  | cons p rest ih =>
      obtain ⟨k', v'⟩ := p
      by_cases h : k' = k
      · subst h
        simp [dictGet]
      · simp [dictGet, h, ih, Ne.symm h]

/-! ## Claim theorems -/

section ClaimTheorems

open SimplePipelineM BaseConfigM MlflowM StepsUtils

/-- C8 (confirmed): `SimplePipeline(func)` returns a class whose name is
`func.__name__`, whose only base is `BasePipeline`, and whose `connect`
attribute is `staticmethod(func)` with `func` itself embedded unchanged (the
factory is pure and does not touch the input function). -/
theorem simple_pipeline_factory_spec (func : FuncObj) :
    (SimplePipeline func).name = func.name ∧
    (SimplePipeline func).bases = [PyBaseClass.BasePipeline] ∧
    dictGet (SimplePipeline func).attrs "connect" = some (ClassAttr.staticm func) :=
  ⟨rfl, rfl, rfl⟩

/-- C6 (confirmed): after construction and after every `__setattr__`, the
YAML file at `get_config_path()` holds exactly the instance's current
settings dict (the file is created first when absent and rewritten on every
mutation). -/
theorem base_config_persistence (fs : PyDict (PyDict JsonValue))
    (p : String) (data : PyDict JsonValue) (s : BaseConfigState)
    (name : String) (v : JsonValue) :
    dictGet (BaseConfig_init fs p data).fs (BaseConfig_init fs p data).configPath =
        some (BaseConfig_init fs p data).attrs ∧
    (BaseConfig_init fs p data).attrs = data ∧
    dictGet (BaseConfig_setattr s name v).fs (BaseConfig_setattr s name v).configPath =
        some (BaseConfig_setattr s name v).attrs ∧
    (BaseConfig_setattr s name v).attrs = dictInsert s.attrs name v := by
  refine ⟨?_, rfl, ?_, rfl⟩ <;>
    simp [BaseConfig_init, BaseConfig_setattr, BaseConfig_dump, write_yaml,
      dictGet_dictInsert_self]

/-- C10 (confirmed): when no experiment has the given name,
`get_or_create_mlflow_run` dereferences `mlflow_experiment.experiment_id`
on `None` and dies with an undocumented `AttributeError` instead of a
defined error. -/
theorem get_or_create_run_missing_experiment (st : MlflowState)
    (en rn : String) (h : get_experiment_by_name st en = none) :
    get_or_create_mlflow_run st en rn = Except.error MlflowError.attributeErrorNone := by
  unfold get_or_create_mlflow_run
  rw [h]

/-- Witness for C10 at a server with no experiments. -/
theorem get_or_create_run_missing_experiment_witness :
    get_or_create_mlflow_run stNoExp "exp" "run" =
      Except.error MlflowError.attributeErrorNone :=
  get_or_create_run_missing_experiment stNoExp "exp" "run" rfl

/-- C5 (confirmed): for an existing experiment, `get_or_create_mlflow_run`
resumes the first run found by the search for the `mlflow.runName` tag when
one exists (leaving the server unchanged), and otherwise starts a fresh run
with that run name in the experiment. -/
theorem get_or_create_run_spec (st : MlflowState) (en rn : String) (expId : Nat)
    (h : get_experiment_by_name st en = some expId) :
    (∀ r rest, search_runs_by_name st expId rn = r :: rest →
        get_or_create_mlflow_run st en rn = Except.ok (⟨r.runId, expId⟩, st) ∧
        r ∈ st.runs ∧ r.runName = rn ∧ r.experimentId = expId) ∧
    (search_runs_by_name st expId rn = [] →
        get_or_create_mlflow_run st en rn =
          Except.ok (⟨st.nextRunId, expId⟩,
            ⟨st.experiments, st.runs ++ [⟨st.nextRunId, expId, rn⟩],
             st.nextRunId + 1⟩)) := by
  have hgo : get_or_create_mlflow_run st en rn =
      Except.ok (gocr_act st expId rn (gocr_decide st expId rn)) := by
    unfold get_or_create_mlflow_run
    rw [h]
  constructor
  · intro r rest hs
    have hmem : r ∈ search_runs_by_name st expId rn := by
      rw [hs]; exact List.mem_cons_self r rest
    have hfil := List.mem_filter.mp hmem
    have hcond := of_decide_eq_true hfil.2
    refine ⟨?_, hfil.1, hcond.2, hcond.1⟩
    have hdec : gocr_decide st expId rn = some r.runId := by
      unfold gocr_decide
      rw [hs]
      rfl
    rw [hgo, hdec]
    rfl
  · intro hs
    have hdec : gocr_decide st expId rn = none := by
      unfold gocr_decide
      rw [hs]
      rfl
    rw [hgo, hdec]
    rfl

/-- Witness for C5 at a server with two matching runs and at one with
none. -/
theorem get_or_create_run_spec_witness :
    get_or_create_mlflow_run stRuns "exp" "run" =
      Except.ok (⟨5, 1⟩, stRuns) ∧
    get_or_create_mlflow_run stFresh "exp" "run" =
      Except.ok (⟨0, 1⟩, ⟨[("exp", 1)], [⟨0, 1, "run"⟩], 1⟩) := by
  constructor
  · exact ((get_or_create_run_spec stRuns "exp" "run" 1 rfl).1
      ⟨5, 1, "run"⟩ [⟨7, 1, "run"⟩] rfl).1
  · exact (get_or_create_run_spec stFresh "exp" "run" 1 rfl).2 rfl

/-- C7 (confirmed): the lookup and the creation are separate steps with no
synchronization, so under the interleaving where both calls run their search
before either starts a run, two runs with the same name and distinct ids end
up on the server.  Each sequential call is exactly `gocr_decide` followed by
`gocr_act` (first conjunct), and the stale-read interleaving of two such
calls creates two same-named runs with different ids (second conjunct). -/
theorem get_or_create_run_race (st : MlflowState) (en rn : String) (expId : Nat)
    (hexp : get_experiment_by_name st en = some expId)
    (hempty : search_runs_by_name st expId rn = []) :
    get_or_create_mlflow_run st en rn =
      Except.ok (gocr_act st expId rn (gocr_decide st expId rn)) ∧
    ∃ r1 r2,
      r1 ∈ (gocr_act (gocr_act st expId rn (gocr_decide st expId rn)).2 expId rn
              (gocr_decide st expId rn)).2.runs ∧
      r2 ∈ (gocr_act (gocr_act st expId rn (gocr_decide st expId rn)).2 expId rn
              (gocr_decide st expId rn)).2.runs ∧
      r1.runName = rn ∧ r2.runName = rn ∧ r1.runId ≠ r2.runId := by
  have hdec : gocr_decide st expId rn = none := by
    unfold gocr_decide
    rw [hempty]
    rfl
  constructor
  · unfold get_or_create_mlflow_run
    rw [hexp]
  · refine ⟨⟨st.nextRunId, expId, rn⟩, ⟨st.nextRunId + 1, expId, rn⟩, ?_, ?_, rfl, rfl, ?_⟩
    · rw [hdec]
      unfold gocr_act start_run_new
      simp
    · rw [hdec]
      unfold gocr_act start_run_new
      simp
    · simp

/-- Witness for C7 at a server with experiment `exp` and no runs. -/
theorem get_or_create_run_race_witness :
    get_or_create_mlflow_run stFresh "exp" "run" =
      Except.ok (gocr_act stFresh 1 "run" (gocr_decide stFresh 1 "run")) ∧
    ∃ r1 r2,
      r1 ∈ (gocr_act (gocr_act stFresh 1 "run" (gocr_decide stFresh 1 "run")).2 1 "run"
              (gocr_decide stFresh 1 "run")).2.runs ∧
      r2 ∈ (gocr_act (gocr_act stFresh 1 "run" (gocr_decide stFresh 1 "run")).2 1 "run"
              (gocr_decide stFresh 1 "run")).2.runs ∧
      r1.runName = "run" ∧ r2.runName = "run" ∧ r1.runId ≠ r2.runId :=
  get_or_create_run_race stFresh "exp" "run" 1 rfl rfl

/-- C3 (code_bug): when the declared `return_output` channel and a non-`None`
return value agree, the code does not write the value and return normally:
`return_artifact` is the popped channel value — a `List[tfx_types.Artifact]`
by `Do`'s own signature — and `return_artifact.materializers` raises
`AttributeError` (first conjunct).  The two disagreement cases do raise
`StepInterfaceError` as the claim states (remaining conjuncts). -/
theorem do_return_write_bug :
    Do fRetOne [] [("return_output", [⟨0⟩])] [] = Except.error DoError.attributeError ∧
    Do fNoArgs [] [("return_output", [⟨0⟩])] [] = Except.error DoError.stepInterfaceError ∧
    Do fRetOne [] [] [] = Except.error DoError.stepInterfaceError :=
  ⟨rfl, rfl, rfl⟩

/-- C4 (confirmed): the generated component spec class maps each
`INPUT_SPEC` key to a `ChannelParameter` of the declared artifact type, each
`OUTPUT_SPEC` key likewise, and each `PARAM_SPEC` key to an
`ExecutionParameter` whose type is `str` no matter which primitive type the
step declared. -/
theorem generate_component_spec_maps (modules : Modules) (step : StepCls)
    (comp : ComponentCls) (modules' : Modules)
    (h : generate_component modules step = Except.ok (comp, modules')) :
    comp.SPEC_CLASS.INPUTS =
        step.INPUT_SPEC.map (fun p => (p.1, ChannelParameter.mk p.2)) ∧
    comp.SPEC_CLASS.OUTPUTS =
        step.OUTPUT_SPEC.map (fun p => (p.1, ChannelParameter.mk p.2)) ∧
    comp.SPEC_CLASS.PARAMETERS =
        step.PARAM_SPEC.map (fun p => (p.1, ExecutionParameter.mk PrimType.strT)) ∧
    ∀ q ∈ comp.SPEC_CLASS.PARAMETERS, q.2.type = PrimType.strT := by
  unfold generate_component at h
  cases hm : dictGet modules step.module with
  | none =>
      rw [hm] at h
      cases h
  | some mdict =>
      rw [hm] at h
      rw [Except.ok.injEq, Prod.mk.injEq] at h
      obtain ⟨hc, _⟩ := h
      subst hc
      refine ⟨rfl, rfl, rfl, ?_⟩
      intro q hq
      simp only [List.mem_map] at hq
      obtain ⟨p, _, hp⟩ := hq
      rw [← hp]

/-- Witness for C4 at a one-input, one-output, one-`int`-parameter step. -/
theorem generate_component_spec_maps_witness :
    compW.SPEC_CLASS.INPUTS =
        stepW.INPUT_SPEC.map (fun p => (p.1, ChannelParameter.mk p.2)) ∧
    compW.SPEC_CLASS.OUTPUTS =
        stepW.OUTPUT_SPEC.map (fun p => (p.1, ChannelParameter.mk p.2)) ∧
    compW.SPEC_CLASS.PARAMETERS =
        stepW.PARAM_SPEC.map (fun p => (p.1, ExecutionParameter.mk PrimType.strT)) ∧
    ∀ q ∈ compW.SPEC_CLASS.PARAMETERS, q.2.type = PrimType.strT :=
  generate_component_spec_maps modW stepW compW modW' rfl

/-- C9 (confirmed): after a successful `generate_component(step)` call, the
step's module carries an attribute `"<StepClassName>_Executor"` bound to the
newly synthesized executor class, and every other `(module, attribute)` pair
of `sys.modules` is unchanged. -/
theorem generate_component_module_frame (modules : Modules) (step : StepCls)
    (comp : ComponentCls) (modules' : Modules)
    (h : generate_component modules step = Except.ok (comp, modules')) :
    getModuleAttr modules' step.module (step.name ++ "_Executor") =
        some (PyObj.execObj (executorClassOf step)) ∧
    ∀ m a, (m = step.module → a ≠ step.name ++ "_Executor") →
        getModuleAttr modules' m a = getModuleAttr modules m a := by
  unfold generate_component at h
  cases hm : dictGet modules step.module with
  | none =>
      rw [hm] at h
      cases h
  | some mdict =>
      rw [hm] at h
      rw [Except.ok.injEq, Prod.mk.injEq] at h
      obtain ⟨_, hmods⟩ := h
      subst hmods
      constructor
      · simp only [getModuleAttr, dictGet_dictInsert_self]
      · intro m a hma
        by_cases hmod : m = step.module
        · subst hmod
          have ha := hma rfl
          simp only [getModuleAttr, dictGet_dictInsert_self, hm,
            dictGet_dictInsert_ne _ _ _ _ ha]
        · simp only [getModuleAttr, dictGet_dictInsert_ne _ _ _ _ hmod]

/-- Witness for C9 at a one-step module table. -/
theorem generate_component_module_frame_witness :
    getModuleAttr modW' stepW.module (stepW.name ++ "_Executor") =
        some (PyObj.execObj (executorClassOf stepW)) ∧
    ∀ m a, (m = stepW.module → a ≠ stepW.name ++ "_Executor") →
        getModuleAttr modW' m a = getModuleAttr modW m a :=
  generate_component_module_frame modW stepW compW modW' rfl

/-! ### Helper lemmas about the stages of `Do` -/

theorem collectChannels_ok_not_mem (err : String → DoError)
    (chans : PyDict (List Artifact)) :
    ∀ (args args' : PyDict PyVal) (k : String), dictGet chans k = none →
      collectChannels err args chans = Except.ok args' →
      dictGet args' k = dictGet args k := by
  induction chans with
  | nil =>
      intro args args' k _ h
      simp only [collectChannels, Except.ok.injEq] at h
      rw [h]
  | cons p rest ih =>
      intro args args' k hk h
      obtain ⟨name, arts⟩ := p
      have hn : name ≠ k := by
        intro hh
        subst hh
        simp [dictGet] at hk
      have hk' : dictGet rest k = none := by
        simpa [dictGet, hn] using hk
      cases arts with
      | nil => simp [collectChannels] at h
      | cons a tail =>
          cases tail with
          | nil =>
              simp only [collectChannels] at h
              rw [ih _ args' k hk' h, dictGet_dictInsert_ne _ _ _ _ (Ne.symm hn)]
          | cons b tail2 => simp [collectChannels] at h

theorem collectChannels_ok_mem (err : String → DoError)
    (chans : PyDict (List Artifact)) :
    ∀ (args args' : PyDict PyVal) (k : String) (a : Artifact),
      (chans.map Prod.fst).Nodup → dictGet chans k = some [a] →
      collectChannels err args chans = Except.ok args' →
      dictGet args' k = some (PyVal.artifactV a) := by
  induction chans with
  | nil =>
      intro args args' k a _ hk _
      simp [dictGet] at hk
  | cons p rest ih =>
      intro args args' k a hnd hk h
      obtain ⟨name, arts⟩ := p
      simp only [List.map_cons, List.nodup_cons] at hnd
      by_cases hn : name = k
      · subst hn
        have harts : arts = [a] := by simpa [dictGet] using hk
        subst harts
        simp only [collectChannels] at h
        have hrest : dictGet rest name = none :=
          (dictGet_eq_none_iff rest name).mpr hnd.1
        rw [collectChannels_ok_not_mem err rest _ args' name hrest h,
          dictGet_dictInsert_self]
      · have hk' : dictGet rest k = some [a] := by
          simpa [dictGet, hn] using hk
        cases arts with
        | nil => simp [collectChannels] at h
        | cons b tail =>
            cases tail with
            | nil =>
                simp only [collectChannels] at h
                exact ih _ args' k a hnd.2 hk' h
            | cons c tail2 => simp [collectChannels] at h

theorem collectChannels_no_bad (err : String → DoError)
    (chans : PyDict (List Artifact)) :
    hasBad chans = false → ∀ args : PyDict PyVal,
      ∃ args', collectChannels err args chans = Except.ok args' := by
  induction chans with
  | nil =>
      intro _ args
      exact ⟨args, rfl⟩
  | cons p rest ih =>
      intro h args
      obtain ⟨name, arts⟩ := p
      simp only [hasBad, List.any_cons, Bool.or_eq_false_iff] at h
      have hlen : arts.length = 1 := by simpa using h.1
      obtain ⟨a, ha⟩ := List.length_eq_one.mp hlen
      subst ha
      simp only [collectChannels]
      exact ih (by simpa [hasBad] using h.2) _

theorem collectChannels_bad (err : String → DoError)
    (chans : PyDict (List Artifact)) :
    hasBad chans = true →
      ∃ n, ∀ args : PyDict PyVal,
        collectChannels err args chans = Except.error (err n) := by
  induction chans with
  | nil =>
      intro h
      simp [hasBad] at h
  | cons p rest ih =>
      intro h
      obtain ⟨name, arts⟩ := p
      by_cases hlen : arts.length = 1
      · obtain ⟨a, ha⟩ := List.length_eq_one.mp hlen
        subst ha
        have hrest : hasBad rest = true := by
          simpa [hasBad] using h
        obtain ⟨n, hall⟩ := ih hrest
        refine ⟨n, fun args => ?_⟩
        simp only [collectChannels]
        exact hall _
      · refine ⟨name, fun args => ?_⟩
        cases arts with
        | nil => rfl
        | cons a tail =>
            cases tail with
            | nil => exact absurd rfl hlen
            | cons b tail2 => rfl

theorem decodeExecProps_error_form (e : PyDict String) :
    ∀ er, decodeExecProps e = Except.error er →
      ∃ k, er = DoError.jsonDecodeError k := by
  induction e with
  | nil =>
      intro er h
      cases h
  | cons p rest ih =>
      intro er h
      obtain ⟨k, v⟩ := p
      simp only [decodeExecProps] at h
      cases hj : jsonLoads v with
      | none =>
          rw [hj] at h
          cases h
          exact ⟨k, rfl⟩
      | some j =>
          rw [hj] at h
          cases hd : decodeExecProps rest with
          | error e' =>
              rw [hd] at h
              cases h
              exact ih er hd
          | ok ds =>
              rw [hd] at h
              cases h

theorem parseParams_error_form (exec : PyDict JsonValue) (ps : PyDict PrimType) :
    ∀ er, parseParams exec ps = Except.error er →
      er = DoError.validationError := by
  induction ps with
  | nil =>
      intro er h
      cases h
  | cons p rest ih =>
      intro er h
      obtain ⟨k, t⟩ := p
      simp only [parseParams] at h
      split at h
      · cases h
        rfl
      · split at h
        · cases h
          rfl
        · split at h
          next e' hp =>
            cases h
            exact ih _ hp
          next ps' hp => cases h

theorem parseParams_keys (exec : PyDict JsonValue) (ps : PyDict PrimType) :
    ∀ parsed, parseParams exec ps = Except.ok parsed →
      parsed.map Prod.fst = ps.map Prod.fst := by
  induction ps with
  | nil =>
      intro parsed h
      simp only [parseParams, Except.ok.injEq] at h
      rw [← h]
      rfl
  | cons p rest ih =>
      intro parsed h
      obtain ⟨k, t⟩ := p
      simp only [parseParams] at h
      split at h
      · cases h
      · split at h
        · cases h
        · split at h
          next e' hp => cases h
          next ps' hp =>
            cases h
            simp [ih ps' hp]

theorem doReturnPhase_error_form (ra : Option (List Artifact))
    (args : PyDict PyVal) (rv : Option PyVal) (er : DoError)
    (h : doReturnPhase ra args rv = Except.error er) :
    er = DoError.attributeError ∨ er = DoError.stepInterfaceError := by
  cases ra <;> cases rv <;> simp only [doReturnPhase] at h <;> cases h <;> simp

theorem foldl_dictInsert_not_mem (parsed : PyDict JsonValue) :
    ∀ (d : PyDict PyVal) (k : String), k ∉ parsed.map Prod.fst →
      dictGet (parsed.foldl (fun d p => dictInsert d p.1 (PyVal.jsonV p.2)) d) k =
        dictGet d k := by
  induction parsed with
  | nil =>
      intro d k _
      rfl
  | cons p rest ih =>
      intro d k hk
      simp only [List.map_cons, List.mem_cons] at hk
      push_neg at hk
      simp only [List.foldl_cons]
      rw [ih _ k hk.2, dictGet_dictInsert_ne _ _ _ _ hk.1]

theorem dictGet_filter_ne_return (o : PyDict (List Artifact)) (name : String)
    (h : name ≠ "return_output") :
    dictGet (o.filter fun p => p.1 != "return_output") name = dictGet o name := by
  induction o with
  | nil => rfl
  | cons p rest ih =>
      obtain ⟨k, v⟩ := p
      by_cases hk : k = name
      · subst hk
        simp [List.filter_cons, dictGet, h]
      · by_cases hr : k = "return_output"
        · subst hr
          simp [List.filter_cons, dictGet, hk, ih]
        · simp [List.filter_cons, dictGet, hk, hr, ih]

/-- When some channel is bad, `Do` fails with the corresponding
singleton-channel `ValueError`, uniformly in the wrapped function. -/
theorem do_bad_channel (i o : PyDict (List Artifact)) (e : PyDict String)
    (hbc : hasBadChannel i o = true) :
    ∃ err, err.isChannelValueError = true ∧
      ∀ g : PyFunction, Do g i o e = Except.error err := by
  by_cases hbi : hasBad i = true
  · obtain ⟨n, hall⟩ := collectChannels_bad DoError.valueErrorInput i hbi
    refine ⟨DoError.valueErrorInput n, rfl, fun g => ?_⟩
    simp [Do, DoPrepare, hall]
  · have hbi' : hasBad i = false := by simpa using hbi
    have hbo : hasBad (o.filter fun p => p.1 != "return_output") = true := by
      unfold hasBadChannel at hbc
      simpa [hbi'] using hbc
    obtain ⟨args1, h1⟩ := collectChannels_no_bad DoError.valueErrorInput i hbi' []
    obtain ⟨n, hall⟩ := collectChannels_bad DoError.valueErrorOutput _ hbo
    refine ⟨DoError.valueErrorOutput n, rfl, fun g => ?_⟩
    simp [Do, DoPrepare, h1, hall]

/-- When every channel is a singleton, any error `Do` raises is not one of
the two singleton-channel `ValueError`s. -/
theorem do_no_bad_channel (f : PyFunction) (i o : PyDict (List Artifact))
    (e : PyDict String) (hbc : hasBadChannel i o = false) (err : DoError)
    (hdo : Do f i o e = Except.error err) :
    err.isChannelValueError = false := by
  unfold hasBadChannel at hbc
  rw [Bool.or_eq_false_iff] at hbc
  obtain ⟨args1, h1⟩ := collectChannels_no_bad DoError.valueErrorInput i hbc.1 []
  obtain ⟨args2, h2⟩ :=
    collectChannels_no_bad DoError.valueErrorOutput _ hbc.2 args1
  cases hd : decodeExecProps e with
  | error e3 =>
      simp only [Do, DoPrepare, h1, h2, hd] at hdo
      obtain ⟨k, hk⟩ := decodeExecProps_error_form e _ hd
      cases hdo
      rw [hk]
      rfl
  | ok newExec =>
      cases hp : parseParams newExec (paramSpecOf f.argspec) with
      | error e4 =>
          simp only [Do, DoPrepare, h1, h2, hd, hp] at hdo
          cases hdo
          rw [parseParams_error_form newExec _ _ hp]
          rfl
      | ok parsed =>
          simp only [Do, DoPrepare, h1, h2, hd, hp] at hdo
          rcases doReturnPhase_error_form _ _ _ _ hdo with h | h <;> rw [h] <;> rfl

/-- C2 (corrected): `Do` raises one of its two explicit singleton-channel
`ValueError`s exactly when some input channel or some non-`return_output`
output channel does not hold exactly one artifact, and in that case the
wrapped step function is never invoked — the outcome does not depend on it
at all.  The claim's plain "if and only if some channel is bad then a
`ValueError` is raised" is refuted separately: decoding or validating
`exec_properties` can raise `ValueError` subclasses with all channels
fine. -/
theorem do_value_error_characterization (f g : PyFunction)
    (i o : PyDict (List Artifact)) (e : PyDict String) :
    ((∃ err, Do f i o e = Except.error err ∧ err.isChannelValueError = true) ↔
        hasBadChannel i o = true) ∧
    (hasBadChannel i o = true → Do f i o e = Do g i o e) := by
  constructor
  · constructor
    · rintro ⟨err, hdo, hcv⟩
      by_contra hbc
      have hbc' : hasBadChannel i o = false := by simpa using hbc
      rw [do_no_bad_channel f i o e hbc' err hdo] at hcv
      cases hcv
    · intro hbc
      obtain ⟨err, hcv, hall⟩ := do_bad_channel i o e hbc
      exact ⟨err, hall f, hcv⟩
  · intro hbc
    obtain ⟨err, _, hall⟩ := do_bad_channel i o e hbc
    rw [hall f, hall g]

/-- Witness for C2's characterization at a dict with an empty input
channel. -/
theorem do_value_error_characterization_witness :
    ((∃ err, Do fNoArgs [("i", [])] [] [] = Except.error err ∧
        err.isChannelValueError = true) ↔
      hasBadChannel [("i", [])] [] = true) ∧
    (hasBadChannel [("i", [])] [] = true →
      Do fNoArgs [("i", [])] [] [] = Do fRetOne [("i", [])] [] []) :=
  do_value_error_characterization fNoArgs fRetOne [("i", [])] [] []

/-- Counterexample to C2 as stated: with no channels at all (so every
channel vacuously holds exactly one artifact) `Do` still raises a
`ValueError` — the `json.JSONDecodeError` coming from
`json.loads("nonjson")` in the `new_exec` comprehension, a `ValueError`
subclass. -/
theorem do_value_error_counterexample :
    Do fNoArgs [] [] [("x", "nonjson")] =
      Except.error (DoError.jsonDecodeError "x") ∧
    DoError.isValueError (DoError.jsonDecodeError "x") = true ∧
    hasBadChannel [] [] = false :=
  ⟨rfl, rfl, rfl⟩

/-- C1 (corrected): when the preparation phase succeeds, `Do` invokes the
wrapped function on exactly the prepared keyword dict, and every singleton
channel is passed through as its untouched artifact — provided its name is
not shadowed later: an input channel must not also be a non-`return`
output channel, and no channel may share its name with a `param_spec`
argument of the wrapped function, because
`function_args.update(pydantic_c.parse_obj(new_exec).dict())` overwrites
such entries with the decoded execution property. -/
theorem do_passthrough_amended (f : PyFunction) (i o : PyDict (List Artifact))
    (e : PyDict String) (args : PyDict PyVal) (ra : Option (List Artifact))
    (hnd_i : (i.map Prod.fst).Nodup) (hnd_o : (o.map Prod.fst).Nodup)
    (hprep : DoPrepare f i o e = Except.ok (args, ra)) :
    Do f i o e = doReturnPhase ra args (f.call args) ∧
    (∀ name a, dictGet i name = some [a] → dictGet o name = none →
        name ∉ paramFields f → dictGet args name = some (PyVal.artifactV a)) ∧
    (∀ name a, name ≠ "return_output" → dictGet o name = some [a] →
        name ∉ paramFields f → dictGet args name = some (PyVal.artifactV a)) := by
  have hdo : Do f i o e = doReturnPhase ra args (f.call args) := by
    unfold Do
    rw [hprep]
  unfold DoPrepare at hprep
  split at hprep
  · cases hprep
  next args1 hc1 =>
    split at hprep
    · cases hprep
    next args2 hc2 =>
      split at hprep
      · cases hprep
      next newExec hc3 =>
        split at hprep
        · cases hprep
        next parsed hc4 =>
          rw [Except.ok.injEq, Prod.mk.injEq] at hprep
          obtain ⟨hargs, hra⟩ := hprep
          have hkeys : parsed.map Prod.fst = (paramSpecOf f.argspec).map Prod.fst :=
            parseParams_keys newExec _ parsed hc4
          refine ⟨hdo, ?_, ?_⟩
          · intro name a hi ho hp
            have hp' : name ∉ parsed.map Prod.fst := by
              rw [hkeys]
              exact hp
            have ho' : dictGet (o.filter fun p => p.1 != "return_output") name = none := by
              rw [dictGet_eq_none_iff] at ho ⊢
              intro hmem
              exact ho ((o.filter_sublist.map Prod.fst).subset hmem)
            rw [← hargs, foldl_dictInsert_not_mem parsed args2 name hp',
              collectChannels_ok_not_mem _ _ args1 args2 name ho' hc2]
            exact collectChannels_ok_mem _ i [] args1 name a hnd_i hi hc1
          · intro name a hnr ho hp
            have hp' : name ∉ parsed.map Prod.fst := by
              rw [hkeys]
              exact hp
            have ho2 : dictGet (o.filter fun p => p.1 != "return_output") name = some [a] := by
              rw [dictGet_filter_ne_return o name hnr]
              exact ho
            have hnd_f : (((o.filter fun p => p.1 != "return_output").map Prod.fst)).Nodup :=
              hnd_o.sublist (o.filter_sublist.map Prod.fst)
            rw [← hargs, foldl_dictInsert_not_mem parsed args2 name hp']
            exact collectChannels_ok_mem _ _ args1 args2 name a hnd_f ho2 hc2

/-- Witness for C1's amended pass-through at one input channel, one output
channel and a popped `return_output` channel. -/
theorem do_passthrough_amended_witness :
    Do fNoArgs iW oW [] = doReturnPhase (some [⟨9⟩]) argsW (fNoArgs.call argsW) ∧
    (∀ name a, dictGet iW name = some [a] → dictGet oW name = none →
        name ∉ paramFields fNoArgs →
        dictGet argsW name = some (PyVal.artifactV a)) ∧
    (∀ name a, name ≠ "return_output" → dictGet oW name = some [a] →
        name ∉ paramFields fNoArgs →
        dictGet argsW name = some (PyVal.artifactV a)) :=
  do_passthrough_amended fNoArgs iW oW [] argsW (some [⟨9⟩])
    (by simp [iW]) (by simp [oW]) rfl

/-- Counterexample to C1 as stated: with the single input channel `a`
holding exactly one artifact, the wrapped function (whose argument `a` is
annotated `int`) is invoked, yet the argument it receives for `a` is the
decoded execution property `5`, not the channel's artifact — the
`function_args.update(...)` call overwrote it. -/
theorem do_passthrough_counterexample :
    Do fIntParam [("a", [⟨0⟩])] [] [("a", "5")] =
      Except.ok { callArgs := [("a", PyVal.jsonV (JsonValue.jint 5))], returns := none } ∧
    PyVal.jsonV (JsonValue.jint 5) ≠ PyVal.artifactV ⟨0⟩ :=
  ⟨rfl, by decide⟩

end ClaimTheorems

end Zenml
